import Mathlib

/-!
Shallow embedding of the payroll calculator
(`src/Payroll_calculator/{employee,payslip,payroll_processor}.py`).

Python `Decimal` values are modelled as `ℚ`; `Decimal.quantize(0.01,
ROUND_HALF_UP)` (round to nearest cent, ties away from zero) is
`round_currency`.  Functions that `raise` are modelled with
`Except String`.  The deductions `dict` is modelled as an association
list built in the source's insertion order (its keys are pairwise
distinct string literals, so the list determines the dict exactly).
-/

namespace Payroll

/-- `EmployeeType` enum from `employee.py`. -/
inductive EmployeeType where
  | FULL_TIME
  | PART_TIME
  | CONTRACTOR
deriving DecidableEq, Repr

/-- `Employee` from `employee.py` (ids modelled as `Nat`). -/
structure Employee where
  id : Nat
  name : String
  employee_type : EmployeeType
  pay_rate : ℚ
  is_union_member : Bool
  has_retirement : Bool
deriving DecidableEq, Repr

/-- `Employee.MAX_PART_TIME_HOURS`. -/
def MAX_PART_TIME_HOURS : ℚ := 120

/-- Tax bracket constant: 0% for the first 1000. -/
def TAX_BRACKET_1_MAX : ℚ := 1000

/-- Tax bracket constant: 10% for 1001–3000. -/
def TAX_BRACKET_2_MAX : ℚ := 3000

/-- Tax bracket constant: 20% for 3001–5000 (30% above). -/
def TAX_BRACKET_3_MAX : ℚ := 5000

/-- Flat health-insurance deduction, FULL_TIME only. -/
def HEALTH_INSURANCE : ℚ := 150

/-- Retirement contribution rate, 5% of gross. -/
def RETIREMENT_RATE : ℚ := 5 / 100

/-- Flat union dues, union members only. -/
def UNION_DUES : ℚ := 50

/-- `PayrollProcessor._round_currency`: quantize to 2 decimal places with
`ROUND_HALF_UP` (nearest cent, ties away from zero). -/
def round_currency (value : ℚ) : ℚ :=
  if 0 ≤ value then (⌊value * 100 + 1 / 2⌋ : ℚ) / 100
  else -((⌊-value * 100 + 1 / 2⌋ : ℚ) / 100)

/-- The message raised when PART_TIME hours exceed the maximum. -/
def partTimeErrMsg : String :=
  "PART_TIME employees cannot exceed 120 hours/month"

/-- `PayrollProcessor.calculate_gross_pay`.  The final `else` mirrors the
source's defensive `raise ValueError("Unknown employee type: ...")`; the
`EmployeeType` enum has exactly three members, so it is unreachable. -/
def calculate_gross_pay (employee : Employee) (hours_or_days : ℚ) :
    Except String ℚ :=
  let pay_rate := employee.pay_rate
  if employee.employee_type = EmployeeType.FULL_TIME then
    Except.ok (round_currency pay_rate)
  else if employee.employee_type = EmployeeType.PART_TIME then
    if hours_or_days > MAX_PART_TIME_HOURS then
      Except.error partTimeErrMsg
    else
      Except.ok (round_currency (pay_rate * hours_or_days))
  else if employee.employee_type = EmployeeType.CONTRACTOR then
    Except.ok (round_currency (pay_rate * hours_or_days))
  else
    Except.error "Unknown employee type"

/-- The value of the local accumulator `tax` in
`PayrollProcessor.calculate_tax`, before the final rounding. -/
def tax_before_rounding (gross : ℚ) : ℚ :=
  if gross ≤ TAX_BRACKET_1_MAX then 0
  else if gross ≤ TAX_BRACKET_2_MAX then
    (gross - TAX_BRACKET_1_MAX) * (10 / 100)
  else if gross ≤ TAX_BRACKET_3_MAX then
    (TAX_BRACKET_2_MAX - TAX_BRACKET_1_MAX) * (10 / 100)
      + (gross - TAX_BRACKET_2_MAX) * (20 / 100)
  else
    (TAX_BRACKET_2_MAX - TAX_BRACKET_1_MAX) * (10 / 100)
      + (TAX_BRACKET_3_MAX - TAX_BRACKET_2_MAX) * (20 / 100)
      + (gross - TAX_BRACKET_3_MAX) * (30 / 100)

/-- `PayrollProcessor.calculate_tax`: progressive brackets, rounded once. -/
def calculate_tax (gross_pay : ℚ) : ℚ :=
  round_currency (tax_before_rounding gross_pay)

/-- `PayrollProcessor.calculate_deductions`: association list in the
source's insertion order (health insurance, retirement, union dues). -/
def calculate_deductions (employee : Employee) (gross_pay : ℚ) :
    List (String × ℚ) :=
  let gross := gross_pay
  (if employee.employee_type = EmployeeType.FULL_TIME then
      [("health_insurance", HEALTH_INSURANCE)]
    else [])
  ++ (if employee.has_retirement then
      [("retirement", round_currency (gross * RETIREMENT_RATE))]
    else [])
  ++ (if employee.is_union_member then
      [("union_dues", UNION_DUES)]
    else [])

/-- `PaySlip` from `payslip.py`. -/
structure PaySlip where
  employee : Employee
  gross_pay : ℚ
  tax_amount : ℚ
  deductions : List (String × ℚ)
  net_pay : ℚ
deriving DecidableEq, Repr

/-- `PaySlip.total_deductions`. -/
def PaySlip.total_deductions (p : PaySlip) : ℚ :=
  (p.deductions.map Prod.snd).sum

/-- `PayrollProcessor.generate_pay_slip`. -/
def generate_pay_slip (employee : Employee) (hours_or_days : ℚ) :
    Except String PaySlip :=
  match calculate_gross_pay employee hours_or_days with
  | Except.error msg => Except.error msg
  | Except.ok gross_pay =>
    let tax_amount := calculate_tax gross_pay
    let deductions := calculate_deductions employee gross_pay
    let total_deductions := (deductions.map Prod.snd).sum
    let net_pay := round_currency (gross_pay - tax_amount - total_deductions)
    Except.ok
      { employee := employee
        gross_pay := gross_pay
        tax_amount := tax_amount
        deductions := deductions
        net_pay := net_pay }

/-- The per-employee hours/days choice in
`PayrollProcessor.process_monthly_payroll`: the map's value when the id
is a key, otherwise a default by employee type. -/
def pick_hours_or_days (hours_or_days_map : Nat → Option ℚ)
    (employee : Employee) : ℚ :=
  match hours_or_days_map employee.id with
  | some h => h
  | none =>
    if employee.employee_type = EmployeeType.PART_TIME then 80
    else if employee.employee_type = EmployeeType.CONTRACTOR then 20
    else 0

/-- `PayrollProcessor.process_monthly_payroll`: the Python loop appends
one payslip per employee in order; an uncaught exception aborts the
whole call, which `Except` models as the error result. -/
def process_monthly_payroll (employee_list : List Employee)
    (hours_or_days_map : Nat → Option ℚ) : Except String (List PaySlip) :=
  match employee_list with
  | [] => Except.ok []
  | employee :: rest =>
    match generate_pay_slip employee
        (pick_hours_or_days hours_or_days_map employee) with
    | Except.error msg => Except.error msg
    | Except.ok payslip =>
      match process_monthly_payroll rest hours_or_days_map with
      | Except.error msg => Except.error msg
      | Except.ok payslips => Except.ok (payslip :: payslips)

/-! ### Concrete sample data -/

/-- A FULL_TIME employee with both deduction flags set. -/
def fullTimeEmp : Employee :=
  ⟨1, "Alice", EmployeeType.FULL_TIME, 2000, true, true⟩

/-- The payslip produced for `fullTimeEmp` (monthly salary 2000). -/
def fullTimeSlip : PaySlip :=
  { employee := fullTimeEmp
    gross_pay := 2000
    tax_amount := 100
    deductions :=
      [("health_insurance", 150), ("retirement", 100), ("union_dues", 50)]
    net_pay := 1600 }

/-- A PART_TIME employee with no deduction flags. -/
def partTimeEmp : Employee :=
  ⟨2, "Bob", EmployeeType.PART_TIME, 10, false, false⟩

/-- A PART_TIME employee opted into retirement. -/
def retireeEmp : Employee :=
  ⟨3, "Cara", EmployeeType.PART_TIME, 10, false, true⟩

/-- A FULL_TIME employee whose salary is below the flat 150
health-insurance deduction. -/
def lowPaidEmp : Employee :=
  ⟨4, "Dan", EmployeeType.FULL_TIME, 100, false, false⟩

/-! ### Helper lemmas about rounding -/

/-- A rational is a whole number of cents. -/
def isCent (q : ℚ) : Prop := ∃ n : ℤ, q = (n : ℚ) / 100

theorem isCent_sub {a b : ℚ} (ha : isCent a) (hb : isCent b) :
    isCent (a - b) := by
  obtain ⟨m, hm⟩ := ha
  obtain ⟨n, hn⟩ := hb
  exact ⟨m - n, by rw [hm, hn]; push_cast; ring⟩

theorem isCent_listSum {l : List ℚ} (h : ∀ q ∈ l, isCent q) :
    isCent l.sum := by
  induction l with
  | nil => exact ⟨0, by simp⟩
  | cons q rest ih =>
    obtain ⟨m, hm⟩ := h q (List.mem_cons_self q rest)
    obtain ⟨n, hn⟩ := ih fun r hr => h r (List.mem_cons_of_mem q hr)
    exact ⟨m + n, by simp only [List.sum_cons, hm, hn]; push_cast; ring⟩

theorem round_currency_isCent (q : ℚ) : isCent (round_currency q) := by
  unfold round_currency
  split_ifs with h
  · exact ⟨⌊q * 100 + 1 / 2⌋, rfl⟩
  · exact ⟨-⌊-q * 100 + 1 / 2⌋, by push_cast; ring⟩

theorem round_currency_eq_self {q : ℚ} (h : isCent q) :
    round_currency q = q := by
  obtain ⟨n, rfl⟩ := h
  unfold round_currency
  split_ifs with h0
  · rw [show (n : ℚ) / 100 * 100 + 1 / 2 = 1 / 2 + (n : ℚ) by ring]
    rw [show ((n : ℚ) : ℚ) = ((n : ℤ) : ℚ) by norm_cast, Int.floor_add_int]
    norm_num
  · rw [show -((n : ℚ) / 100) * 100 + 1 / 2 = 1 / 2 + ((-n : ℤ) : ℚ) by
      push_cast; ring]
    rw [Int.floor_add_int, show (⌊(1 : ℚ) / 2⌋ : ℤ) = 0 by norm_num]
    push_cast
    ring

theorem round_currency_nonneg {q : ℚ} (h : 0 ≤ q) :
    0 ≤ round_currency q := by
  unfold round_currency
  rw [if_pos h]
  have h1 : (0 : ℤ) ≤ ⌊q * 100 + 1 / 2⌋ := Int.le_floor.mpr (by push_cast; linarith)
  have h2 : (0 : ℚ) ≤ (⌊q * 100 + 1 / 2⌋ : ℚ) := by exact_mod_cast h1
  linarith

theorem round_currency_mono_of_nonneg {a b : ℚ} (ha : 0 ≤ a) (hab : a ≤ b) :
    round_currency a ≤ round_currency b := by
  unfold round_currency
  rw [if_pos ha, if_pos (le_trans ha hab)]
  have h1 : ⌊a * 100 + 1 / 2⌋ ≤ ⌊b * 100 + 1 / 2⌋ :=
    Int.floor_le_floor (by linarith)
  have h2 : ((⌊a * 100 + 1 / 2⌋ : ℤ) : ℚ) ≤ (⌊b * 100 + 1 / 2⌋ : ℚ) := by
    exact_mod_cast h1
  linarith

/-! ### Helper lemmas about the payroll functions -/

theorem calculate_gross_pay_ok {e : Employee} {h g : ℚ}
    (hok : calculate_gross_pay e h = Except.ok g) :
    ∃ x, g = round_currency x := by
  unfold calculate_gross_pay at hok
  split_ifs at hok <;> simp only [Except.ok.injEq] at hok <;>
    first
      | exact ⟨e.pay_rate, hok.symm⟩
      | exact ⟨e.pay_rate * h, hok.symm⟩

theorem calculate_deductions_values_isCent (e : Employee) (g : ℚ) :
    ∀ kv ∈ calculate_deductions e g, isCent kv.2 := by
  intro kv hkv
  unfold calculate_deductions at hkv
  simp only [List.mem_append] at hkv
  rcases hkv with (hkv | hkv) | hkv <;> split_ifs at hkv <;>
    simp only [List.mem_singleton, List.not_mem_nil] at hkv
  · rw [hkv]; exact ⟨15000, by norm_num [HEALTH_INSURANCE]⟩
  · rw [hkv]; exact round_currency_isCent _
  · rw [hkv]; exact ⟨5000, by norm_num [UNION_DUES]⟩

theorem generate_pay_slip_ok {e : Employee} {h : ℚ} {p : PaySlip}
    (hp : generate_pay_slip e h = Except.ok p) :
    ∃ g, calculate_gross_pay e h = Except.ok g ∧
      p = { employee := e
            gross_pay := g
            tax_amount := calculate_tax g
            deductions := calculate_deductions e g
            net_pay := round_currency (g - calculate_tax g -
              ((calculate_deductions e g).map Prod.snd).sum) } := by
  unfold generate_pay_slip at hp
  cases hg : calculate_gross_pay e h with
  | error msg => rw [hg] at hp; cases hp
  | ok g =>
    rw [hg] at hp
    simp only [Except.ok.injEq] at hp
    exact ⟨g, rfl, hp.symm⟩

theorem tax_before_rounding_nonneg (g : ℚ) : 0 ≤ tax_before_rounding g := by
  unfold tax_before_rounding TAX_BRACKET_1_MAX TAX_BRACKET_2_MAX
    TAX_BRACKET_3_MAX
  split_ifs <;> linarith

theorem tax_before_rounding_mono {g1 g2 : ℚ} (h : g1 ≤ g2) :
    tax_before_rounding g1 ≤ tax_before_rounding g2 := by
  unfold tax_before_rounding TAX_BRACKET_1_MAX TAX_BRACKET_2_MAX
    TAX_BRACKET_3_MAX
  split_ifs <;> linarith

theorem process_monthly_payroll_ok_index {es : List Employee}
    {m : Nat → Option ℚ} {ps : List PaySlip}
    (hp : process_monthly_payroll es m = Except.ok ps) :
    ps.length = es.length ∧
    ∀ (i : ℕ) (e : Employee), es[i]? = some e → ∃ p : PaySlip,
      ps[i]? = some p ∧
      generate_pay_slip e (pick_hours_or_days m e) = Except.ok p := by
  induction es generalizing ps with
  | nil =>
    simp only [process_monthly_payroll, Except.ok.injEq] at hp
    subst hp
    simp
  | cons e rest ih =>
    simp only [process_monthly_payroll] at hp
    cases h1 : generate_pay_slip e (pick_hours_or_days m e) with
    | error msg => rw [h1] at hp; cases hp
    | ok p =>
      rw [h1] at hp
      cases h2 : process_monthly_payroll rest m with
      | error msg => rw [h2] at hp; cases hp
      | ok ps2 =>
        rw [h2] at hp
        simp only [Except.ok.injEq] at hp
        subst hp
        obtain ⟨hlen, hidx⟩ := ih h2
        refine ⟨by simp [hlen], ?_⟩
        intro i e2 hi
        cases i with
        | zero =>
          simp only [List.getElem?_cons_zero, Option.some.injEq] at hi
          subst hi
          exact ⟨p, by simp, h1⟩
        | succ j =>
          simp only [List.getElem?_cons_succ] at hi ⊢
          exact hidx j e2 hi

/-! ### Claim theorems -/

/-- C1: for every payslip produced by `generate_pay_slip`, net pay equals
gross pay minus tax minus the sum of the deduction values, exactly; and
gross pay, tax, every deduction value and net pay are all fixed points of
the 2-decimal round-half-up rounding. -/
theorem C1_net_pay_invariant (e : Employee) (h : ℚ) (p : PaySlip)
    (hp : generate_pay_slip e h = Except.ok p) :
    p.net_pay =
      p.gross_pay - p.tax_amount - (p.deductions.map Prod.snd).sum ∧
    round_currency p.gross_pay = p.gross_pay ∧
    round_currency p.tax_amount = p.tax_amount ∧
    (∀ kv ∈ p.deductions, round_currency kv.2 = kv.2) ∧
    round_currency p.net_pay = p.net_pay := by
  obtain ⟨g, hg, rfl⟩ := generate_pay_slip_ok hp
  obtain ⟨x, hx⟩ := calculate_gross_pay_ok hg
  have hgc : isCent g := hx ▸ round_currency_isCent x
  have htc : isCent (calculate_tax g) := round_currency_isCent _
  have hsc : isCent ((calculate_deductions e g).map Prod.snd).sum := by
    refine isCent_listSum ?_
    intro q hq
    simp only [List.mem_map] at hq
    obtain ⟨kv, hkv, rfl⟩ := hq
    exact calculate_deductions_values_isCent e g kv hkv
  have hnet : isCent (g - calculate_tax g -
      ((calculate_deductions e g).map Prod.snd).sum) :=
    isCent_sub (isCent_sub hgc htc) hsc
  refine ⟨round_currency_eq_self hnet, round_currency_eq_self hgc,
    round_currency_eq_self htc, ?_,
    round_currency_eq_self (round_currency_isCent _)⟩
  intro kv hkv
  exact round_currency_eq_self (calculate_deductions_values_isCent e g kv hkv)

/-- Witness for C1 at `fullTimeEmp` with worked-units 0. -/
theorem C1_net_pay_invariant_witness :
    fullTimeSlip.net_pay =
      fullTimeSlip.gross_pay - fullTimeSlip.tax_amount -
        (fullTimeSlip.deductions.map Prod.snd).sum :=
  (C1_net_pay_invariant fullTimeEmp 0 fullTimeSlip (by
    norm_num [generate_pay_slip, calculate_gross_pay, calculate_tax,
      tax_before_rounding, calculate_deductions, round_currency, fullTimeEmp,
      fullTimeSlip, TAX_BRACKET_1_MAX, TAX_BRACKET_2_MAX, TAX_BRACKET_3_MAX,
      HEALTH_INSURANCE, RETIREMENT_RATE, UNION_DUES,
      MAX_PART_TIME_HOURS])).1

/-- C2: `calculate_tax` realises the progressive bracket schedule: tax is 0
for any gross at most 1000, and the spot values at 2000, 3000, 4000, 5000
and 6000 are 100, 200, 400, 600 and 900. -/
theorem C2_tax_brackets :
    (∀ g : ℚ, g ≤ 1000 → calculate_tax g = 0) ∧
    calculate_tax 2000 = 100 ∧ calculate_tax 3000 = 200 ∧
    calculate_tax 4000 = 400 ∧ calculate_tax 5000 = 600 ∧
    calculate_tax 6000 = 900 := by
  refine ⟨?_, ?_, ?_, ?_, ?_, ?_⟩
  · intro g hg
    unfold calculate_tax tax_before_rounding TAX_BRACKET_1_MAX
    rw [if_pos hg]
    norm_num [round_currency]
  all_goals
    norm_num [calculate_tax, tax_before_rounding, round_currency,
      TAX_BRACKET_1_MAX, TAX_BRACKET_2_MAX, TAX_BRACKET_3_MAX]

/-- Witness for C2's universally quantified first conjunct, at gross 500. -/
theorem C2_tax_brackets_witness : calculate_tax 500 = 0 :=
  C2_tax_brackets.1 500 (by norm_num)

/-- C3: a PART_TIME employee with worked-units above 120 makes
`calculate_gross_pay` fail with the hours-cap error, the same error
propagates unchanged through `generate_pay_slip` and aborts
`process_monthly_payroll` (no payslip list is produced), while
worked-units 120 succeeds with gross `pay_rate * 120`. -/
theorem C3_part_time_cap (e : Employee) (h : ℚ)
    (he : e.employee_type = EmployeeType.PART_TIME) :
    (h > 120 →
      calculate_gross_pay e h = Except.error partTimeErrMsg ∧
      generate_pay_slip e h = Except.error partTimeErrMsg ∧
      ∀ (pre post : List Employee) (m : Nat → Option ℚ),
        (∀ e2 ∈ pre, ∃ p : PaySlip,
          generate_pay_slip e2 (pick_hours_or_days m e2) = Except.ok p) →
        m e.id = some h →
        process_monthly_payroll (pre ++ e :: post) m =
          Except.error partTimeErrMsg) ∧
    calculate_gross_pay e 120 =
      Except.ok (round_currency (e.pay_rate * 120)) := by
  constructor
  · intro h120
    have hgross : calculate_gross_pay e h = Except.error partTimeErrMsg := by
      simp [calculate_gross_pay, he, MAX_PART_TIME_HOURS, gt_iff_lt, h120]
    have hgen : generate_pay_slip e h = Except.error partTimeErrMsg := by
      simp [generate_pay_slip, hgross]
    refine ⟨hgross, hgen, ?_⟩
    intro pre post m hpre hmap
    induction pre with
    | nil =>
      have hpick : pick_hours_or_days m e = h := by
        simp [pick_hours_or_days, hmap]
      simp [process_monthly_payroll, hpick, hgen]
    | cons e2 rest ih =>
      obtain ⟨p, hp2⟩ := hpre e2 (List.mem_cons_self e2 rest)
      have ihr := ih fun e3 h3 => hpre e3 (List.mem_cons_of_mem e2 h3)
      simp only [List.cons_append, process_monthly_payroll, hp2]
      rw [show rest.append (e :: post) = rest ++ e :: post from rfl, ihr]
  · have hne : ¬(e.employee_type = EmployeeType.FULL_TIME) := by
      rw [he]; decide
    have hcap : ¬((120 : ℚ) > MAX_PART_TIME_HOURS) := by
      norm_num [MAX_PART_TIME_HOURS]
    unfold calculate_gross_pay
    rw [if_neg hne, if_pos he, if_neg hcap]

/-- Witness for C3 at `partTimeEmp` with 121 worked hours in the map. -/
theorem C3_part_time_cap_witness :
    process_monthly_payroll [partTimeEmp] (fun _ => some 121) =
      Except.error partTimeErrMsg :=
  ((C3_part_time_cap partTimeEmp 121 rfl).1 (by norm_num)).2.2
    [] [] (fun _ => some 121) (by simp) rfl

/-- C4 counterexample: for a retirement-opted-in employee and gross pay 0,
the returned mapping contains the key "retirement" with value 0, so the
claim that every present key maps to a strictly positive amount is false. -/
theorem C4_zero_deduction_cex :
    ("retirement", (0 : ℚ)) ∈ calculate_deductions retireeEmp 0 := by
  norm_num [calculate_deductions, retireeEmp, round_currency,
    RETIREMENT_RATE]

/-- C4 (amended): a deduction key is present only with the value its rule
prescribes; "health_insurance" (150) and "union_dues" (50) are always
strictly positive, while "retirement" carries 5% of gross rounded to two
decimals, which is nonnegative for nonnegative gross but can be zero. -/
theorem C4_deduction_values (e : Employee) (g : ℚ) :
    ∀ kv ∈ calculate_deductions e g,
      (kv.1 = "health_insurance" ∧ kv.2 = 150 ∧ 0 < kv.2) ∨
      (kv.1 = "union_dues" ∧ kv.2 = 50 ∧ 0 < kv.2) ∨
      (kv.1 = "retirement" ∧
        kv.2 = round_currency (g * RETIREMENT_RATE) ∧
        (0 ≤ g → 0 ≤ kv.2)) := by
  intro kv hkv
  unfold calculate_deductions at hkv
  simp only [List.mem_append] at hkv
  rcases hkv with (hkv | hkv) | hkv <;> split_ifs at hkv <;>
    simp only [List.mem_singleton, List.not_mem_nil] at hkv <;> subst hkv
  · left; norm_num [HEALTH_INSURANCE]
  · right; right
    refine ⟨rfl, rfl, fun hg => round_currency_nonneg ?_⟩
    have hr : (0 : ℚ) ≤ RETIREMENT_RATE := by norm_num [RETIREMENT_RATE]
    exact mul_nonneg hg hr
  · right; left; norm_num [UNION_DUES]

/-- Witness for C4's amended theorem at `fullTimeEmp`, gross 2000, on the
health-insurance entry. -/
theorem C4_deduction_values_witness :
    ((("health_insurance", (150 : ℚ)).1 = "health_insurance" ∧
        (("health_insurance", (150 : ℚ)).2 = 150 ∧
          (0 : ℚ) < ("health_insurance", (150 : ℚ)).2)) ∨
      (("health_insurance", (150 : ℚ)).1 = "union_dues" ∧
        (("health_insurance", (150 : ℚ)).2 = 50 ∧
          (0 : ℚ) < ("health_insurance", (150 : ℚ)).2)) ∨
      (("health_insurance", (150 : ℚ)).1 = "retirement" ∧
        (("health_insurance", (150 : ℚ)).2 =
            round_currency (2000 * RETIREMENT_RATE) ∧
          ((0 : ℚ) ≤ 2000 → (0 : ℚ) ≤ ("health_insurance", (150 : ℚ)).2)))) :=
  C4_deduction_values fullTimeEmp 2000 ("health_insurance", 150) (by
    norm_num [calculate_deductions, fullTimeEmp, HEALTH_INSURANCE])

/-- C5: "health_insurance" (value 150) is present iff the employee is
FULL_TIME, "retirement" (5% of gross, rounded) iff the retirement flag is
set, "union_dues" (value 50) iff the union flag is set; a FULL_TIME
employee with both flags gets exactly those three keys, and
PART_TIME/CONTRACTOR employees never get "health_insurance". -/
theorem C5_deduction_keys (e : Employee) (g : ℚ) :
    (("health_insurance" ∈ (calculate_deductions e g).map Prod.fst) ↔
      e.employee_type = EmployeeType.FULL_TIME) ∧
    (∀ v : ℚ, ("health_insurance", v) ∈ calculate_deductions e g →
      v = HEALTH_INSURANCE) ∧
    (("retirement" ∈ (calculate_deductions e g).map Prod.fst) ↔
      e.has_retirement = true) ∧
    (∀ v : ℚ, ("retirement", v) ∈ calculate_deductions e g →
      v = round_currency (g * RETIREMENT_RATE)) ∧
    (("union_dues" ∈ (calculate_deductions e g).map Prod.fst) ↔
      e.is_union_member = true) ∧
    (∀ v : ℚ, ("union_dues", v) ∈ calculate_deductions e g →
      v = UNION_DUES) ∧
    (e.employee_type = EmployeeType.FULL_TIME → e.has_retirement = true →
      e.is_union_member = true →
      calculate_deductions e g =
        [("health_insurance", HEALTH_INSURANCE),
         ("retirement", round_currency (g * RETIREMENT_RATE)),
         ("union_dues", UNION_DUES)]) ∧
    (e.employee_type = EmployeeType.PART_TIME ∨
        e.employee_type = EmployeeType.CONTRACTOR →
      "health_insurance" ∉ (calculate_deductions e g).map Prod.fst) := by
  obtain ⟨eid, enm, et, er, eu, eret⟩ := e
  cases et <;> cases eu <;> cases eret <;>
    simp [calculate_deductions]

/-- Witness for C5: the health-insurance key is present for the FULL_TIME
sample employee. -/
theorem C5_deduction_keys_witness :
    "health_insurance" ∈ (calculate_deductions fullTimeEmp 2000).map
      Prod.fst :=
  (C5_deduction_keys fullTimeEmp 2000).1.mpr rfl

/-- C6: `calculate_gross_pay` returns `round_currency pay_rate` for
FULL_TIME (independent of worked-units), `round_currency (pay_rate *
units)` for PART_TIME when units do not exceed 120, and
`round_currency (pay_rate * units)` for CONTRACTOR. -/
theorem C6_gross_pay (e : Employee) (h1 h2 : ℚ) :
    (e.employee_type = EmployeeType.FULL_TIME →
      calculate_gross_pay e h1 = Except.ok (round_currency e.pay_rate) ∧
      calculate_gross_pay e h1 = calculate_gross_pay e h2) ∧
    (e.employee_type = EmployeeType.PART_TIME → h1 ≤ 120 →
      calculate_gross_pay e h1 =
        Except.ok (round_currency (e.pay_rate * h1))) ∧
    (e.employee_type = EmployeeType.CONTRACTOR →
      calculate_gross_pay e h1 =
        Except.ok (round_currency (e.pay_rate * h1))) := by
  refine ⟨fun hft => ?_, fun hpt hle => ?_, fun hc => ?_⟩
  · constructor <;> simp [calculate_gross_pay, hft]
  · have hne : ¬(e.employee_type = EmployeeType.FULL_TIME) := by
      rw [hpt]; decide
    have hcap : ¬(h1 > MAX_PART_TIME_HOURS) := by
      rw [MAX_PART_TIME_HOURS]; exact not_lt.mpr hle
    unfold calculate_gross_pay
    rw [if_neg hne, if_pos hpt, if_neg hcap]
  · have hne : ¬(e.employee_type = EmployeeType.FULL_TIME) := by
      rw [hc]; decide
    have hne2 : ¬(e.employee_type = EmployeeType.PART_TIME) := by
      rw [hc]; decide
    unfold calculate_gross_pay
    rw [if_neg hne, if_neg hne2, if_pos hc]

/-- Witness for C6: the FULL_TIME case at `fullTimeEmp`, two different
worked-units values. -/
theorem C6_gross_pay_witness :
    calculate_gross_pay fullTimeEmp 7 =
      Except.ok (round_currency fullTimeEmp.pay_rate) :=
  ((C6_gross_pay fullTimeEmp 7 9).1 rfl).1

/-- C7: whenever `process_monthly_payroll` succeeds, the result has one
payslip per employee in input order, the i-th being
`generate_pay_slip` of the i-th employee at the worked-units chosen by
`pick_hours_or_days`, which takes the map's value when the id is a key
and otherwise the per-type default (80 PART_TIME, 20 CONTRACTOR,
0 FULL_TIME). -/
theorem C7_batch_order (es : List Employee) (m : Nat → Option ℚ)
    (ps : List PaySlip)
    (hp : process_monthly_payroll es m = Except.ok ps) :
    ps.length = es.length ∧
    (∀ (i : ℕ) (e : Employee), es[i]? = some e → ∃ p : PaySlip,
      ps[i]? = some p ∧
      generate_pay_slip e (pick_hours_or_days m e) = Except.ok p) ∧
    (∀ e : Employee,
      (∀ hv : ℚ, m e.id = some hv → pick_hours_or_days m e = hv) ∧
      (m e.id = none → pick_hours_or_days m e =
        if e.employee_type = EmployeeType.PART_TIME then 80
        else if e.employee_type = EmployeeType.CONTRACTOR then 20
        else 0)) := by
  obtain ⟨hlen, hidx⟩ := process_monthly_payroll_ok_index hp
  refine ⟨hlen, hidx, fun e => ⟨fun hv hmv => ?_, fun hnone => ?_⟩⟩
  · simp [pick_hours_or_days, hmv]
  · simp [pick_hours_or_days, hnone]

/-- Witness for C7 at a one-element batch with an empty worked-units map. -/
theorem C7_batch_order_witness :
    ([fullTimeSlip] : List PaySlip).length =
      ([fullTimeEmp] : List Employee).length :=
  (C7_batch_order [fullTimeEmp] (fun _ => none) [fullTimeSlip] (by
    norm_num [process_monthly_payroll, pick_hours_or_days,
      generate_pay_slip, calculate_gross_pay, calculate_tax,
      tax_before_rounding, calculate_deductions, round_currency,
      fullTimeEmp, fullTimeSlip, TAX_BRACKET_1_MAX, TAX_BRACKET_2_MAX,
      TAX_BRACKET_3_MAX, HEALTH_INSURANCE, RETIREMENT_RATE, UNION_DUES,
      MAX_PART_TIME_HOURS])).1

/-- C8: the payroll functions are pure over employees: a successful
`generate_pay_slip` returns a payslip whose employee field is the input
employee unchanged, and every payslip of a successful
`process_monthly_payroll` carries the corresponding input employee
unchanged. -/
theorem C8_employee_unchanged :
    (∀ (e : Employee) (h : ℚ) (p : PaySlip),
      generate_pay_slip e h = Except.ok p → p.employee = e) ∧
    (∀ (es : List Employee) (m : Nat → Option ℚ) (ps : List PaySlip),
      process_monthly_payroll es m = Except.ok ps →
      ∀ (i : ℕ) (e : Employee), es[i]? = some e →
        ∃ p : PaySlip, ps[i]? = some p ∧ p.employee = e) := by
  have hgen : ∀ (e : Employee) (h : ℚ) (p : PaySlip),
      generate_pay_slip e h = Except.ok p → p.employee = e := by
    intro e h p hp
    obtain ⟨g, hg, rfl⟩ := generate_pay_slip_ok hp
    rfl
  refine ⟨hgen, fun es m ps hp i e hi => ?_⟩
  obtain ⟨p, hpi, hpg⟩ := (process_monthly_payroll_ok_index hp).2 i e hi
  exact ⟨p, hpi, hgen e _ p hpg⟩

/-- Witness for C8 at `fullTimeEmp` with worked-units 0. -/
theorem C8_employee_unchanged_witness :
    fullTimeSlip.employee = fullTimeEmp :=
  C8_employee_unchanged.1 fullTimeEmp 0 fullTimeSlip (by
    norm_num [generate_pay_slip, calculate_gross_pay, calculate_tax,
      tax_before_rounding, calculate_deductions, round_currency,
      fullTimeEmp, fullTimeSlip, TAX_BRACKET_1_MAX, TAX_BRACKET_2_MAX,
      TAX_BRACKET_3_MAX, HEALTH_INSURANCE, RETIREMENT_RATE, UNION_DUES,
      MAX_PART_TIME_HOURS])

/-- C9: `calculate_tax` is monotone non-decreasing (also across negative
gross values, which fall in the zero bracket) and never negative. -/
theorem C9_tax_monotone (g1 g2 : ℚ) (h : g1 ≤ g2) :
    calculate_tax g1 ≤ calculate_tax g2 ∧ 0 ≤ calculate_tax g1 := by
  unfold calculate_tax
  exact ⟨round_currency_mono_of_nonneg (tax_before_rounding_nonneg g1)
      (tax_before_rounding_mono h),
    round_currency_nonneg (tax_before_rounding_nonneg g1)⟩

/-- Witness for C9 at the pair (-5, 3). -/
theorem C9_tax_monotone_witness :
    calculate_tax (-5) ≤ calculate_tax 3 ∧ 0 ≤ calculate_tax (-5) :=
  C9_tax_monotone (-5) 3 (by norm_num)

/-- C10: net pay can be strictly negative: the FULL_TIME employee
`lowPaidEmp` with salary 100 gets the flat 150 health-insurance deduction
and `generate_pay_slip` succeeds with net pay -50 < 0; nothing clamps it
at zero. -/
theorem C10_negative_net_pay :
    generate_pay_slip lowPaidEmp 0 =
      Except.ok
        { employee := lowPaidEmp
          gross_pay := 100
          tax_amount := 0
          deductions := [("health_insurance", 150)]
          net_pay := -50 } ∧
    (-50 : ℚ) < 0 := by
  refine ⟨?_, by norm_num⟩
  norm_num [generate_pay_slip, calculate_gross_pay, calculate_tax,
    tax_before_rounding, calculate_deductions, round_currency, lowPaidEmp,
    TAX_BRACKET_1_MAX, TAX_BRACKET_2_MAX, TAX_BRACKET_3_MAX,
    HEALTH_INSURANCE, MAX_PART_TIME_HOURS]

end Payroll
